import Mathlib

/-!
Verification development for the CTF lab admission & lifecycle orchestrator
(`openclaw-skill/scripts/lab_orchestrator.py`, `security.py`, `config.py`).

The Python modules are shallowly embedded: the persisted JSON stores become
association lists (`List (String × _)`), preserving insertion order as Python
dicts do; the Docker runtime is an explicit `Driver` record of oracle
functions supplying the exit codes and stdout that `subprocess.run` would
return; wall-clock times are rationals.  Each public command is translated
as a pure function from the loaded store (plus driver/time inputs) to its
structured result, the store it saves back, and the docker side effects it
issues.
-/

-- ── Configuration constants (config.py) ─────────────────────────

def MAX_LABS_PER_USER : Nat := 3

def MAX_TOTAL_LABS : Nat := 50

def AUTO_CLEANUP_HOURS : ℚ := 4

def RATE_LIMIT_SOFT : Nat := 10

def RATE_LIMIT_WARN : Nat := 15

def RATE_LIMIT_HARD : Nat := 20

def RATE_LIMIT_BLOCK_SECONDS : Int := 60

def ALLOWED_ROLES : List String := [ "Operator", "Officer" ]

def HARDCODED_ADMIN_ID : Int := 393483939194601472

-- ── Association-list store helpers (JSON object semantics) ──────

def alLookup {β : Type} : List (String × β) → String → Option β
  | [], _ => none
  | (k, v) :: rest, n => if k == n then some v else alLookup rest n

def alInsert {β : Type} : List (String × β) → String → β → List (String × β)
  | [], n, e => [ (n, e) ]
  | (k, v) :: rest, n, e => if k == n then (n, e) :: rest else (k, v) :: alInsert rest n e

def alErase {β : Type} : List (String × β) → String → List (String × β)
  | [], _ => []
  | (k, v) :: rest, n => if k == n then rest else (k, v) :: alErase rest n

def alKeys {β : Type} (l : List (String × β)) : List String := l.map Prod.fst

-- ── String helpers (Python str.strip / str.split / int) ─────────

/-- Python whitespace class (`\s`, also the characters `str.strip` removes). -/
def isPySpace (c : Char) : Bool :=
  c == ' ' || c == '\t' || c == '\n' || c == '\r' || c == '\x0b' || c == '\x0c'

/-- Python `str.strip()`: drop leading and trailing whitespace. -/
def pyStrip (s : String) : String :=
  ⟨ ((s.data.dropWhile isPySpace).reverse.dropWhile isPySpace).reverse ⟩

def splitCommaAux : List Char → List Char → List String
  | [], acc => [ ⟨ acc.reverse ⟩ ]
  | c :: rest, acc =>
      if c == ',' then ⟨ acc.reverse ⟩ :: splitCommaAux rest []
      else splitCommaAux rest (c :: acc)

/-- Python `str.split(",")`: split on every comma, keeping empty pieces. -/
def splitComma (s : String) : List String := splitCommaAux s.data []

def digitsVal : List Char → Option Nat
  | [] => none
  | ds =>
      if ds.all Char.isDigit then
        some (ds.foldl (fun acc c => acc * 10 + (c.toNat - 48)) 0)
      else none

/-- Python `int(s)` as a partial function: optional sign and decimal digits,
surrounding whitespace tolerated; anything else is a parse failure. -/
def parseIntPy (s : String) : Option Int :=
  match (pyStrip s).data with
  | '-' :: rest => (digitsVal rest).map (fun n => -(n : Int))
  | '+' :: rest => (digitsVal rest).map (fun n => (n : Int))
  | ds => (digitsVal ds).map (fun n => (n : Int))

-- ── Lab catalog (config.AVAILABLE_LABS) ─────────────────────────

structure LabCfg where
  name : String
  image : String
  category : String
  difficulty : String
  port : Nat
  description : String
deriving Repr, DecidableEq

def AVAILABLE_LABS : List (String × LabCfg) :=
  [ ( "dvwa",
      ⟨ "Damn Vulnerable Web Application", "vulnerables/web-dvwa", "web", "beginner", 80,
        "Practice SQL injection, XSS, command injection" ⟩ ),
    ( "webgoat",
      ⟨ "OWASP WebGoat", "webgoat/webgoat:latest", "web", "beginner", 8080,
        "OWASP Top 10 practice environment" ⟩ ),
    ( "juice-shop",
      ⟨ "OWASP Juice Shop", "bkimminich/juice-shop", "web", "beginner", 3000,
        "Modern web application vulnerabilities" ⟩ ),
    ( "metasploitable",
      ⟨ "Metasploitable 2", "tleemcjr/metasploitable2", "system", "intermediate", 22,
        "Full penetration testing environment" ⟩ ),
    ( "crypto-lab",
      ⟨ "Cryptography Lab", "custom/crypto-tools", "challenge", "beginner", 7681,
        "Pre-installed crypto tools (hashcat, john, rockyou.txt)" ⟩ ),
    ( "forensics-lab",
      ⟨ "Digital Forensics Lab", "custom/forensics-tools", "challenge", "intermediate", 7681,
        "Forensics tools (volatility, binwalk, foremost)" ⟩ ) ]

def catalogFind (t : String) : Option LabCfg := alLookup AVAILABLE_LABS t

-- ── Lab registry data model (active_labs.json entries) ──────────

structure LabEntry where
  owner : String
  lab_type : String
  container_name : String
  ip_address : String
  port : Nat
  started_at : Int
  status : String
deriving Repr, DecidableEq

abbrev Registry := List (String × LabEntry)

def setStatus (e : LabEntry) (s : String) : LabEntry :=
  ⟨ e.owner, e.lab_type, e.container_name, e.ip_address, e.port, e.started_at, s ⟩

-- ── Runtime driver oracle (docker subprocess results) ───────────

/-- Oracle for the external container runtime: for each docker invocation the
orchestrator issues, the oracle supplies the exit code (and stdout where the
code reads it).  `inspectIP` models `docker inspect -f ..IPAddress..` and
`inspectRunning` models `docker inspect -f ..State.Running..`. -/
structure Driver where
  netInspect_rc : Int
  netCreate_rc : Int
  run_rc : String → Int
  inspectIP : String → Int × String
  inspectRunning : String → Int × String
  stop_rc : String → Int
  rm_rc : String → Int

inductive DockerCmd where
  | run (name : String)
  | stop (name : String)
  | rm (name : String)
deriving Repr, DecidableEq

def ensure_network (d : Driver) : Bool :=
  if d.netInspect_rc == 0 then true
  else if !(d.netCreate_rc == 0) then false
  else true

def container_ip (d : Driver) (n : String) : Option String :=
  let r := d.inspectIP n
  if r.1 == 0 && !(pyStrip r.2 == "") then some (pyStrip r.2) else none

def container_running (d : Driver) (n : String) : Bool :=
  let r := d.inspectRunning n
  r.1 == 0 && pyStrip r.2 == "true"

-- ── start_lab ───────────────────────────────────────────────────

structure StartResult where
  success : Bool
  error : Option String
  available : Option String
  running_labs : Option (List String)
  lab_name : Option String
  ip_address : Option String
  port : Option Nat
deriving Repr, DecidableEq

def userRunningLabs (labs : Registry) (username : String) : Registry :=
  labs.filter (fun kv => kv.2.owner == username && kv.2.status == "running")

def totalRunning (labs : Registry) : Nat :=
  labs.countP (fun kv => kv.2.status == "running")

def start_lab (d : Driver) (now : Int) (ts : String) (labs : Registry)
    (username lab_type : String) : StartResult × Registry × List DockerCmd :=
  match catalogFind lab_type with
  | none =>
      ( ⟨ false, some ("Unknown lab type: " ++ lab_type),
          some (String.intercalate ", " (AVAILABLE_LABS.map (fun kv => kv.1))),
          none, none, none, none ⟩, labs, [] )
  | some cfg =>
      let user_labs := userRunningLabs labs username
      if user_labs.length ≥ MAX_LABS_PER_USER then
        ( ⟨ false,
            some ("You already have " ++ toString MAX_LABS_PER_USER ++ " labs running."),
            none, some (user_labs.map (fun kv => kv.2.lab_type)), none, none, none ⟩,
          labs, [] )
      else if totalRunning labs ≥ MAX_TOTAL_LABS then
        ( ⟨ false, some "Server lab capacity reached. Try again later.",
            none, none, none, none, none ⟩, labs, [] )
      else if !(ensure_network d) then
        ( ⟨ false, some "Failed to create Docker network. Contact admin.",
            none, none, none, none, none ⟩, labs, [] )
      else
        let container_name := lab_type ++ "-" ++ username ++ "-" ++ ts
        if !(d.run_rc container_name == 0) then
          ( ⟨ false, some ("Failed to start " ++ lab_type ++ ". Check Docker logs."),
              none, none, none, none, none ⟩, labs, [ DockerCmd.run container_name ] )
        else
          match container_ip d container_name with
          | none =>
              ( ⟨ false, some "Container started but no IP assigned.",
                  none, none, none, none, none ⟩, labs,
                [ DockerCmd.run container_name, DockerCmd.rm container_name ] )
          | some ip =>
              let entry : LabEntry :=
                ⟨ username, lab_type, container_name, ip, cfg.port, now, "running" ⟩
              ( ⟨ true, none, none, none, some container_name, some ip, some cfg.port ⟩,
                alInsert labs container_name entry, [ DockerCmd.run container_name ] )

-- ── stop_lab ────────────────────────────────────────────────────

structure StopResult where
  success : Bool
  error : Option String
  message : Option String
deriving Repr, DecidableEq

def stopTarget (labs : Registry) (username lab_type : String) : Option (String × LabEntry) :=
  labs.find? (fun kv =>
    kv.2.owner == username && kv.2.lab_type == lab_type && kv.2.status == "running")

def stop_lab (d : Driver) (labs : Registry) (username lab_type : String) :
    StopResult × Registry × List DockerCmd :=
  match stopTarget labs username lab_type with
  | none =>
      ( ⟨ false, some ("You don\x27t have a running " ++ lab_type ++ " lab."), none ⟩,
        labs, [] )
  | some kv =>
      let target := kv.1
      let labs' := alErase (alInsert labs target (setStatus kv.2 "stopped")) target
      ( ⟨ true, none, some ("Stopped " ++ target) ⟩, labs',
        [ DockerCmd.stop target, DockerCmd.rm target ] )

-- ── status_labs ─────────────────────────────────────────────────

/-- The per-entry correction `status_labs` applies while iterating: an entry of
the queried owner whose container the driver does not report as running is
downgraded from running to stopped; every other entry is left untouched. -/
def transformEntry (d : Driver) (username : String) (n : String) (info : LabEntry) : LabEntry :=
  if info.owner == username then
    if !(container_running d n) && info.status == "running" then setStatus info "stopped"
    else info
  else info

structure ActiveLab where
  name : String
  lab_type : String
  ip : String
  port : Nat
  uptime_hours : ℚ
  remaining_hours : ℚ
deriving Repr, DecidableEq

def status_labs (d : Driver) (now : Int) (labs : Registry) (username : String) :
    (List ActiveLab) × Registry :=
  let labs' := labs.map (fun kv => (kv.1, transformEntry d username kv.1 kv.2))
  let reports := labs'.filterMap (fun kv =>
    if kv.2.owner == username && kv.2.status == "running" then
      some ⟨ kv.1, kv.2.lab_type, kv.2.ip_address, kv.2.port,
             ((now - kv.2.started_at : Int) : ℚ) / 3600,
             max 0 (AUTO_CLEANUP_HOURS - ((now - kv.2.started_at : Int) : ℚ) / 3600) ⟩
    else none)
  (reports, labs')

-- ── force_cleanup ───────────────────────────────────────────────

def forceGo (username : String) : List String → Registry → Registry × List String × List DockerCmd
  | [], labs => (labs, [], [])
  | n :: rest, labs =>
      match alLookup labs n with
      | some e =>
          if e.owner == username then
            let res := forceGo username rest (alErase labs n)
            (res.1, n :: res.2.1, DockerCmd.stop n :: DockerCmd.rm n :: res.2.2)
          else forceGo username rest labs
      | none => forceGo username rest labs

def force_cleanup (d : Driver) (labs : Registry) (username : String) :
    (List String) × Registry × List DockerCmd :=
  let res := forceGo username (alKeys labs) labs
  (res.2.1, res.1, res.2.2)

-- ── auto_cleanup ────────────────────────────────────────────────

structure CleanedRec where
  name : String
  owner : String
  uptime_hours : ℚ
deriving Repr, DecidableEq

/-- An entry the TTL sweep removes: persisted as running and older than the
time-to-live at sweep time. -/
def expired (now : Int) (e : LabEntry) : Bool :=
  e.status == "running" && decide (((now - e.started_at : Int) : ℚ) / 3600 > AUTO_CLEANUP_HOURS)

def autoPass1 (now : Int) : List String → Registry → Registry × List CleanedRec × List DockerCmd
  | [], labs => (labs, [], [])
  | n :: rest, labs =>
      match alLookup labs n with
      | none => autoPass1 now rest labs
      | some info =>
          if expired now info then
            let res := autoPass1 now rest (alErase labs n)
            (res.1, ⟨ n, info.owner, ((now - info.started_at : Int) : ℚ) / 3600 ⟩ :: res.2.1,
             DockerCmd.stop n :: DockerCmd.rm n :: res.2.2)
          else autoPass1 now rest labs

def autoPass2 (d : Driver) : List String → Registry → Registry
  | [], labs => labs
  | n :: rest, labs =>
      if container_running d n then autoPass2 d rest labs
      else autoPass2 d rest (alErase labs n)

structure CleanResult where
  success : Bool
  cleaned : List CleanedRec
  count : Nat
deriving Repr, DecidableEq

def auto_cleanup (d : Driver) (now : Int) (labs : Registry) :
    CleanResult × Registry × List DockerCmd :=
  let p1 := autoPass1 now (alKeys labs) labs
  let l2 := autoPass2 d (alKeys p1.1) p1.1
  (⟨ true, p1.2.1, p1.2.1.length ⟩, l2, p1.2.2)

-- ── Operation sequences over the registry ───────────────────────

inductive Op where
  | doStart (d : Driver) (now : Int) (ts : String) (username lab_type : String)
  | doStop (d : Driver) (username lab_type : String)
  | doStatus (d : Driver) (now : Int) (username : String)
  | doForce (d : Driver) (username : String)
  | doAuto (d : Driver) (now : Int)

def applyOp (labs : Registry) : Op → Registry
  | Op.doStart d now ts u t => (start_lab d now ts labs u t).2.1
  | Op.doStop d u t => (stop_lab d labs u t).2.1
  | Op.doStatus d now u => (status_labs d now labs u).2
  | Op.doForce d u => (force_cleanup d labs u).2.1
  | Op.doAuto d now => (auto_cleanup d now labs).2.1

def execOps (ops : List Op) : Registry := ops.foldl applyOp []

def ownerRunning (labs : Registry) (owner : String) : Nat :=
  labs.countP (fun kv => kv.2.owner == owner && kv.2.status == "running")

-- ── Input sanitizer (security.sanitize over config.BLOCKED_PATTERNS) ──

/-- Word characters for the regex `\b` boundary (ASCII `\w`). -/
def isWordChar (c : Char) : Bool := c.isAlphanum || c == '_'

def boundaryOk : Option Char → Bool
  | none => true
  | some c => !(isWordChar c)

/-- `re.search` of `\b<w>\b` for a word `w` of word characters: scan for an
occurrence of `w` with no word character on either side. -/
def hasWordFrom (w : List Char) (prev : Option Char) : List Char → Bool
  | [] => false
  | c :: rest =>
      (boundaryOk prev && w.isPrefixOf (c :: rest) && boundaryOk ((c :: rest).drop w.length).head?)
      || hasWordFrom w (some c) rest

def hasWord (w : List Char) (s : List Char) : Bool := hasWordFrom w none s

/-- `re.search` of a literal pattern: substring containment. -/
def containsSub (pat : List Char) : List Char → Bool
  | [] => pat.isEmpty
  | c :: rest => pat.isPrefixOf (c :: rest) || containsSub pat rest

def btNext : List Char → Bool
  | [] => false
  | c :: rest => if c == '`' then true else btNext rest

def btAfter : List Char → Bool
  | [] => false
  | c :: rest => if c == '`' then false else btNext rest

/-- `re.search` of the backtick-execution pattern: an opening backtick, at
least one non-backtick character, and a closing backtick. -/
def btScan : List Char → Bool
  | [] => false
  | c :: rest => (c == '`' && btAfter rest) || btScan rest

/-- `re.search` of the destructive-command pattern: a semicolon followed by
the letters of the remove command later on the same line (`.` in the source
regex does not cross a newline). -/
def semiScan : List Char → Bool
  | [] => false
  | c :: rest =>
      (c == ';' && containsSub [ 'r', 'm' ] (rest.takeWhile (fun ch => !(ch == '\n'))))
      || semiScan rest

def impOsAfter (s : List Char) : Bool :=
  (match s with
   | c :: _ => isPySpace c
   | [] => false)
  && [ 'o', 's' ].isPrefixOf (s.dropWhile isPySpace)

/-- `re.search` of the OS-module pattern: the import keyword, one or more
whitespace characters, then the module name. -/
def impOsScan : List Char → Bool
  | [] => false
  | c :: rest =>
      ([ 'i', 'm', 'p', 'o', 'r', 't' ].isPrefixOf (c :: rest) && impOsAfter ((c :: rest).drop 6))
      || impOsScan rest

/-- The deny-list of `config.BLOCKED_PATTERNS`, in source order: each regex
source string paired with a decision procedure for `re.search` of that regex
on (already lowercased) input. -/
def BLOCKED_PATTERNS : List (String × (List Char → Bool)) :=
  [ ( "\\$\\(", fun s => containsSub ("$(".data) s ),
    ( "`[^`]+`", btScan ),
    ( "&&|\\|\\|", fun s => containsSub ("&&".data) s || containsSub ("||".data) s ),
    ( ";.*rm", semiScan ),
    ( "\\bcurl\\b|\\bwget\\b", fun s => hasWord ("curl".data) s || hasWord ("wget".data) s ),
    ( "\\beval\\b|\\bexec\\b", fun s => hasWord ("eval".data) s || hasWord ("exec".data) s ),
    ( "import\\s+os", impOsScan ),
    ( "https?://", fun s => containsSub ("http://".data) s || containsSub ("https://".data) s ),
    ( "\\bsudo\\b", fun s => hasWord ("sudo".data) s ),
    ( "/etc/passwd", fun s => containsSub ("/etc/passwd".data) s ) ]

structure SanitizeResult where
  valid : Bool
  reason : Option String
  pattern : Option String
  cleaned : Option String
deriving Repr, DecidableEq

/-- First matching deny-list pattern (case-insensitivity realised by
lowercasing the input before matching the lowercase pattern bodies). -/
def findBlocked (s : List Char) : Option String :=
  (BLOCKED_PATTERNS.find? (fun pr => pr.2 s)).map (fun pr => pr.1)

def sanitize (user_input : String) : SanitizeResult :=
  if pyStrip user_input == "" then ⟨ false, some "Empty input", none, none ⟩
  else
    match findBlocked ((user_input.data).map Char.toLower) with
    | some p => ⟨ false, some "Invalid input detected", some p, none ⟩
    | none => ⟨ true, none, none, some (pyStrip user_input) ⟩

-- ── Access control (security.check_access / verify_member) ──────

structure VerifiedRec where
  username : String
  verified_at : String
deriving Repr, DecidableEq

abbrev VerifiedStore := List (String × VerifiedRec)

structure AccessResult where
  allowed : Bool
  admin : Bool
  reason : Option String
  message : Option String
deriving Repr, DecidableEq

def ACCESS_DENIED_MESSAGE : String :=
  "👋 Hey! You need to be verified to use CTF labs.\n\nTo get access:\n1. Contact @officers in the Discord server\n2. They\x27ll give you the @Operator role\n3. Then you can start labs!\n\nThis helps us keep the labs secure 🔒"

def parseUid (s : String) : Int := (parseIntPy s).getD 0

def parseRoles (csv : String) : List String :=
  if csv == "" then []
  else ((splitComma csv).map pyStrip).filter (fun r => !(r == ""))

def check_access (verified : VerifiedStore) (username user_id roles_csv : String) :
    AccessResult :=
  if parseUid user_id == HARDCODED_ADMIN_ID then ⟨ true, true, none, none ⟩
  else
    let roles := parseRoles roles_csv
    if roles.any (fun r => ALLOWED_ROLES.contains r) then ⟨ true, false, none, none ⟩
    else if (alKeys verified).contains user_id || (alKeys verified).contains username then
      ⟨ true, false, none, none ⟩
    else ⟨ false, false, some "no_role", some ACCESS_DENIED_MESSAGE ⟩

def verify_member (nowIso : String) (verified : VerifiedStore) (username user_id : String) :
    (Bool × String) × VerifiedStore :=
  ( (true, "✅ " ++ username ++ " has been verified for CTF labs."),
    alInsert verified user_id ⟨ username, nowIso ⟩ )

-- ── Rate limiter (security.rate_limit) ──────────────────────────

structure RLEntry where
  timestamps : List Int
  blocked_until : Option Int
  warned : Bool
deriving Repr, DecidableEq

abbrev RLStore := List (String × RLEntry)

structure RLResult where
  allowed : Bool
  wait_seconds : Option Int
  warning : Option String
deriving Repr, DecidableEq

def WARN_MSG : String := "⚠️ You\x27re sending commands quickly. Please slow down."

def rate_limit (now : Int) (store : RLStore) (username : String) : RLResult × RLStore :=
  let cutoff := now - 60
  let entry := (alLookup store username).getD ⟨ [], none, false ⟩
  let blockedActive :=
    match entry.blocked_until with
    | none => false
    | some b => !(b == 0) && decide (now < b)
  if blockedActive then
    ( ⟨ false, some ((entry.blocked_until.getD 0) - now), none ⟩, store )
  else
    let timestamps := entry.timestamps.filter (fun t => decide (t > cutoff))
    let count := timestamps.length
    if count ≥ RATE_LIMIT_HARD then
      let entry' : RLEntry := ⟨ timestamps, some (now + RATE_LIMIT_BLOCK_SECONDS), false ⟩
      ( ⟨ false, some RATE_LIMIT_BLOCK_SECONDS, none ⟩, alInsert store username entry' )
    else
      let warnPair :=
        if count ≥ RATE_LIMIT_WARN && !entry.warned then (some WARN_MSG, true)
        else if count < RATE_LIMIT_SOFT then ((none : Option String), false)
        else ((none : Option String), entry.warned)
      ( ⟨ true, none, warnPair.1 ⟩,
        alInsert store username ⟨ timestamps ++ [ now ], none, warnPair.2 ⟩ )

def rlRun (username : String) : List Int → RLStore → List RLResult × RLStore
  | [], store => ([], store)
  | t :: rest, store =>
      let step := rate_limit t store username
      let res := rlRun username rest step.2
      (step.1 :: res.1, res.2)

-- ── Store lemmas ────────────────────────────────────────────────

theorem countP_alInsert_le {β : Type} (p : String × β → Bool) (l : List (String × β))
    (n : String) (e : β) :
    (alInsert l n e).countP p ≤ l.countP p + (if p (n, e) then 1 else 0) := by
  induction l with
  | nil =>
      simp only [alInsert, List.countP_cons, List.countP_nil]
      split_ifs <;> omega
  | cons kv rest ih =>
      obtain ⟨k, v⟩ := kv
      by_cases h : (k == n) = true
      · simp only [alInsert, if_pos h, List.countP_cons]
        split_ifs <;> omega
      · simp only [alInsert, if_neg h, List.countP_cons]
        split_ifs at ih ⊢ <;> omega

theorem mem_alInsert {β : Type} {l : List (String × β)} {n : String} {e : β} {a : String × β}
    (h : a ∈ alInsert l n e) : a ∈ l ∨ a = (n, e) := by
  induction l with
  | nil =>
      simp only [alInsert, List.mem_singleton] at h
      exact Or.inr h
  | cons kv rest ih =>
      obtain ⟨k, v⟩ := kv
      simp only [alInsert] at h
      split_ifs at h with hk
      · rcases List.mem_cons.mp h with h1 | h1
        · exact Or.inr h1
        · exact Or.inl (List.mem_cons_of_mem _ h1)
      · rcases List.mem_cons.mp h with h1 | h1
        · exact Or.inl (h1 ▸ List.mem_cons_self _ _)
        · rcases ih h1 with h2 | h2
          · exact Or.inl (List.mem_cons_of_mem _ h2)
          · exact Or.inr h2

theorem alErase_sublist {β : Type} (l : List (String × β)) (n : String) :
    (alErase l n).Sublist l := by
  induction l with
  | nil => simp [alErase]
  | cons kv rest ih =>
      obtain ⟨k, v⟩ := kv
      simp only [alErase]
      split_ifs with h
      · exact List.sublist_cons_self _ _
      · exact List.Sublist.cons₂ _ ih

theorem alLookup_mem {β : Type} {l : List (String × β)} {n : String} {v : β}
    (h : alLookup l n = some v) : (n, v) ∈ l := by
  induction l with
  | nil => simp [alLookup] at h
  | cons kv rest ih =>
      obtain ⟨k, w⟩ := kv
      simp only [alLookup] at h
      split_ifs at h with hk
      · obtain rfl : w = v := by simpa using h
        obtain rfl : k = n := by simpa using hk
        exact List.mem_cons_self _ _
      · exact List.mem_cons_of_mem _ (ih h)

theorem alLookup_eq_none {β : Type} {l : List (String × β)} {n : String}
    (h : alLookup l n = none) : n ∉ alKeys l := by
  induction l with
  | nil => simp [alKeys]
  | cons kv rest ih =>
      obtain ⟨k, w⟩ := kv
      simp only [alLookup] at h
      split_ifs at h with hk
      intro hmem
      simp only [alKeys, List.map_cons, List.mem_cons] at hmem
      rcases hmem with h1 | h1
      · exact hk (by simp [h1])
      · exact ih h (by simpa [alKeys] using h1)

theorem alKeys_alErase_sublist {β : Type} (l : List (String × β)) (n : String) :
    (alKeys (alErase l n)).Sublist (alKeys l) :=
  List.Sublist.map _ (alErase_sublist l n)

theorem nodup_alKeys_alErase {β : Type} {l : List (String × β)} (n : String)
    (h : (alKeys l).Nodup) : (alKeys (alErase l n)).Nodup :=
  List.Nodup.sublist (alKeys_alErase_sublist l n) h

theorem not_mem_alKeys_alErase {β : Type} {l : List (String × β)} {n : String}
    (h : (alKeys l).Nodup) : n ∉ alKeys (alErase l n) := by
  induction l with
  | nil => simp [alErase, alKeys]
  | cons kv rest ih =>
      obtain ⟨k, v⟩ := kv
      simp only [alKeys, List.map_cons, List.nodup_cons] at h
      simp only [alErase]
      split_ifs with hk
      · obtain rfl : k = n := by simpa using hk
        exact h.1
      · intro hmem
        simp only [alKeys, List.map_cons, List.mem_cons] at hmem
        rcases hmem with h1 | h1
        · exact hk (by simp [h1])
        · exact ih h.2 (by simpa [alKeys] using h1)

theorem mem_alKeys_of_mem {β : Type} {l : List (String × β)} {a : String × β}
    (h : a ∈ l) : a.1 ∈ alKeys l := List.mem_map_of_mem _ h

theorem alLookup_of_mem_nodup {β : Type} {l : List (String × β)} {n : String} {v : β}
    (hnd : (alKeys l).Nodup) (h : (n, v) ∈ l) : alLookup l n = some v := by
  induction l with
  | nil => simp at h
  | cons kv rest ih =>
      obtain ⟨k, w⟩ := kv
      simp only [alKeys, List.map_cons, List.nodup_cons] at hnd
      rcases List.mem_cons.mp h with h1 | h1
      · cases h1
        simp [alLookup]
      · have hk : ¬(k == n) := by
          intro hkk
          obtain rfl : k = n := by simpa using hkk
          exact hnd.1 (mem_alKeys_of_mem h1)
        simp only [alLookup, if_neg hk]
        exact ih hnd.2 h1

-- ── C6: rate limiter window scenario ────────────────────────────

/-- Request times for one identity: requests 1..21 one second apart inside a
single 60-second window, then a 22nd request after both the block and the
window have fully elapsed. -/
def c6Times : List Int :=
  [ 0, 1, 2, 3, 4, 5, 6, 7, 8, 9, 10, 11, 12, 13, 14, 15, 16, 17, 18, 19, 20, 81 ]

/-- Claim C6: with soft=10, warn=15, hard=20, block=60s, inside one sliding
window the 11th request is allowed unwarned, the 16th is allowed with exactly
the one warning (none on the 17th..20th while the warned flag is set), the
21st is denied reporting a 60-second wait (hence at most 60), and once a full
window has elapsed with no further requests the next request is treated as
request number 1: allowed, unwarned, and the stored entry holds only its own
timestamp with the warned flag clear. -/
theorem rate_limit_window_scenario :
    ((rlRun "u" c6Times []).1.get? 10 = some ⟨ true, none, none ⟩)
    ∧ ((rlRun "u" c6Times []).1.get? 15 = some ⟨ true, none, some WARN_MSG ⟩)
    ∧ ((rlRun "u" c6Times []).1.get? 16 = some ⟨ true, none, none ⟩)
    ∧ ((rlRun "u" c6Times []).1.get? 17 = some ⟨ true, none, none ⟩)
    ∧ ((rlRun "u" c6Times []).1.get? 18 = some ⟨ true, none, none ⟩)
    ∧ ((rlRun "u" c6Times []).1.get? 19 = some ⟨ true, none, none ⟩)
    ∧ ((rlRun "u" c6Times []).1.get? 20 = some ⟨ false, some 60, none ⟩)
    ∧ ((rlRun "u" c6Times []).1.get? 21 = some ⟨ true, none, none ⟩)
    ∧ (alLookup (rlRun "u" c6Times []).2 "u" = some ⟨ [ 81 ], none, false ⟩) := by
  decide

-- ── C7: sanitizer rejections reveal the matched pattern ─────────

/-- Claim C7 counterexample: the claim says a deny-list rejection carries no
pattern identity, so rejections by different patterns are indistinguishable
to the caller.  In the code `sanitize` puts the matched pattern into the
returned structure itself, so two inputs rejected by different patterns get
distinguishable results. -/
theorem sanitize_reveals_pattern :
    (sanitize "$(whoami)").valid = false
    ∧ (sanitize "sudo ls").valid = false
    ∧ (sanitize "$(whoami)").pattern = some "\\$\\("
    ∧ (sanitize "sudo ls").pattern = some "\\bsudo\\b"
    ∧ ¬ sanitize "$(whoami)" = sanitize "sudo ls" := by
  decide

/-- Claim C7 amended: every deny-list rejection carries the constant reason
string "Invalid input detected" — identical across patterns — but the result
additionally exposes the matched pattern itself under the `pattern` key, so
the pattern identity is revealed to the caller (besides being audit-logged). -/
theorem sanitize_reject_shape (s : String) (h : (sanitize s).valid = false) :
    ((sanitize s).reason = some "Empty input" ∧ (sanitize s).pattern = none)
    ∨ ((sanitize s).reason = some "Invalid input detected"
        ∧ ∃ p, (sanitize s).pattern = some p
            ∧ p ∈ BLOCKED_PATTERNS.map (fun pr => pr.1)) := by
  by_cases ht : (pyStrip s == "") = true
  · left
    constructor <;> simp [sanitize, ht]
  · cases hf : findBlocked ((s.data).map Char.toLower) with
    | none => simp [sanitize, ht, hf] at h
    | some p =>
        right
        refine ⟨ by simp [sanitize, ht, hf], p, by simp [sanitize, ht, hf], ?_ ⟩
        unfold findBlocked at hf
        cases hff : BLOCKED_PATTERNS.find? (fun pr => pr.2 ((s.data).map Char.toLower)) with
        | none => rw [hff] at hf; simp at hf
        | some pr =>
            rw [hff] at hf
            have hp : pr.1 = p := by simpa using hf
            subst hp
            exact List.mem_map_of_mem _ (List.mem_of_find?_eq_some hff)

/-- Witness for `sanitize_reject_shape` at a concrete rejected input. -/
theorem sanitize_reject_shape_witness :
    (sanitize "sudo ls").valid = false
    ∧ (((sanitize "sudo ls").reason = some "Empty input"
          ∧ (sanitize "sudo ls").pattern = none)
        ∨ ((sanitize "sudo ls").reason = some "Invalid input detected"
            ∧ ∃ p, (sanitize "sudo ls").pattern = some p
                ∧ p ∈ BLOCKED_PATTERNS.map (fun pr => pr.1))) :=
  ⟨ by decide, sanitize_reject_shape "sudo ls" (by decide) ⟩

-- ── C10: access decision also keyed by display name ─────────────

/-- Claim C10: for a requester who is not the hardcoded admin and has no
allowed role, access is granted exactly when the user id string or the
display username occurs among the keys of the verified-users store — while
`verify_member` only ever inserts entries keyed by the user id. -/
theorem check_access_verified_iff :
    (∀ (verified : VerifiedStore) (username user_id roles_csv : String),
        parseUid user_id ≠ HARDCODED_ADMIN_ID →
        (∀ r ∈ parseRoles roles_csv, r ∉ ALLOWED_ROLES) →
        ((check_access verified username user_id roles_csv).allowed = true ↔
          user_id ∈ alKeys verified ∨ username ∈ alKeys verified))
    ∧ (∀ (nowIso : String) (verified : VerifiedStore) (username user_id : String),
        (verify_member nowIso verified username user_id).2 =
          alInsert verified user_id ⟨ username, nowIso ⟩) := by
  refine ⟨ ?_, fun _ _ _ _ => rfl ⟩
  intro verified username user_id roles_csv hadmin hroles
  have h1 : (parseUid user_id == HARDCODED_ADMIN_ID) = false := by
    simpa using hadmin
  have h2 : ((parseRoles roles_csv).any (fun r => ALLOWED_ROLES.contains r)) = false := by
    rw [List.any_eq_false]
    intro r hr hc
    exact hroles r hr (by simpa [List.contains, List.elem_iff] using hc)
  simp only [check_access, h1, Bool.false_eq_true, if_false, h2]
  by_cases hk : ((alKeys verified).contains user_id || (alKeys verified).contains username) = true
  · rw [if_pos hk]
    simp only [true_iff]
    rcases Bool.or_eq_true_iff.mp hk with hc | hc
    · exact Or.inl (by simpa [List.contains, List.elem_iff] using hc)
    · exact Or.inr (by simpa [List.contains, List.elem_iff] using hc)
  · rw [if_neg hk]
    simp only [Bool.false_eq_true, false_iff]
    intro hor
    apply hk
    rcases hor with hm | hm
    · exact Bool.or_eq_true_iff.mpr (Or.inl (by simpa [List.contains, List.elem_iff] using hm))
    · exact Bool.or_eq_true_iff.mpr (Or.inr (by simpa [List.contains, List.elem_iff] using hm))

/-- Witness for `check_access_verified_iff` at a concrete store and requester. -/
theorem check_access_verified_iff_witness :
    parseUid "999" ≠ HARDCODED_ADMIN_ID
    ∧ (∀ r ∈ parseRoles "Member, Guest", r ∉ ALLOWED_ROLES)
    ∧ ((check_access [ ("123", ⟨ "al", "t0" ⟩) ] "al" "999" "Member, Guest").allowed = true ↔
        "999" ∈ alKeys [ ("123", (⟨ "al", "t0" ⟩ : VerifiedRec)) ]
        ∨ "al" ∈ alKeys [ ("123", (⟨ "al", "t0" ⟩ : VerifiedRec)) ]) :=
  ⟨ by decide, by decide,
    check_access_verified_iff.1 [ ("123", ⟨ "al", "t0" ⟩) ] "al" "999" "Member, Guest"
      (by decide) (by decide) ⟩

-- ── start_lab control-flow lemmas ───────────────────────────────

theorem ownerRunning_eq_length (labs : Registry) (u : String) :
    ownerRunning labs u = (userRunningLabs labs u).length := by
  simp [ownerRunning, userRunningLabs, List.countP_eq_length_filter]

theorem startEq_userQuota (d : Driver) (now : Int) (ts : String) (labs : Registry)
    (u t : String) (cfg : LabCfg) (hc : catalogFind t = some cfg)
    (hq : (userRunningLabs labs u).length ≥ MAX_LABS_PER_USER) :
    start_lab d now ts labs u t =
      ( ⟨ false, some ("You already have " ++ toString MAX_LABS_PER_USER ++ " labs running."),
          none, some ((userRunningLabs labs u).map (fun kv => kv.2.lab_type)),
          none, none, none ⟩, labs, [] ) := by
  simp only [start_lab, hc]
  rw [if_pos hq]

theorem startEq_globalQuota (d : Driver) (now : Int) (ts : String) (labs : Registry)
    (u t : String) (cfg : LabCfg) (hc : catalogFind t = some cfg)
    (hq : ¬ (userRunningLabs labs u).length ≥ MAX_LABS_PER_USER)
    (hg : totalRunning labs ≥ MAX_TOTAL_LABS) :
    start_lab d now ts labs u t =
      ( ⟨ false, some "Server lab capacity reached. Try again later.",
          none, none, none, none, none ⟩, labs, [] ) := by
  simp only [start_lab, hc]
  rw [if_neg hq, if_pos hg]

theorem startEq_noIP (d : Driver) (now : Int) (ts : String) (labs : Registry)
    (u t : String) (cfg : LabCfg) (hc : catalogFind t = some cfg)
    (hq : ¬ (userRunningLabs labs u).length ≥ MAX_LABS_PER_USER)
    (hg : ¬ totalRunning labs ≥ MAX_TOTAL_LABS)
    (hn : ensure_network d = true)
    (hr : d.run_rc (t ++ "-" ++ u ++ "-" ++ ts) = 0)
    (hip : container_ip d (t ++ "-" ++ u ++ "-" ++ ts) = none) :
    start_lab d now ts labs u t =
      ( ⟨ false, some "Container started but no IP assigned.",
          none, none, none, none, none ⟩, labs,
        [ DockerCmd.run (t ++ "-" ++ u ++ "-" ++ ts),
          DockerCmd.rm (t ++ "-" ++ u ++ "-" ++ ts) ] ) := by
  simp only [start_lab, hc]
  rw [if_neg hq, if_neg hg]
  simp only [hn, Bool.not_true, Bool.false_eq_true, if_false, hr]
  simp [hip]

theorem startEq_success (d : Driver) (now : Int) (ts : String) (labs : Registry)
    (u t : String) (cfg : LabCfg) (ip : String) (hc : catalogFind t = some cfg)
    (hq : ¬ (userRunningLabs labs u).length ≥ MAX_LABS_PER_USER)
    (hg : ¬ totalRunning labs ≥ MAX_TOTAL_LABS)
    (hn : ensure_network d = true)
    (hr : d.run_rc (t ++ "-" ++ u ++ "-" ++ ts) = 0)
    (hip : container_ip d (t ++ "-" ++ u ++ "-" ++ ts) = some ip) :
    start_lab d now ts labs u t =
      ( ⟨ true, none, none, none, some (t ++ "-" ++ u ++ "-" ++ ts), some ip, some cfg.port ⟩,
        alInsert labs (t ++ "-" ++ u ++ "-" ++ ts)
          ⟨ u, t, t ++ "-" ++ u ++ "-" ++ ts, ip, cfg.port, now, "running" ⟩,
        [ DockerCmd.run (t ++ "-" ++ u ++ "-" ++ ts) ] ) := by
  simp only [start_lab, hc]
  rw [if_neg hq, if_neg hg]
  simp only [hn, Bool.not_true, Bool.false_eq_true, if_false, hr]
  simp [hip]

-- ── C2: start_lab counts stale entries, no reconciliation ───────

/-- Driver oracle reporting every container as nonexistent (inspect of the
running state exits nonzero), while everything else would succeed. -/
def dAbsent : Driver :=
  ⟨ 0, 0, fun _ => 0, fun _ => (0, "172.20.0.9"), fun _ => (1, ""), fun _ => 0, fun _ => 0 ⟩

def staleEntry (t n : String) : LabEntry := ⟨ "alice", t, n, "172.20.0.2", 80, 0, "running" ⟩

def staleLabs : Registry :=
  [ ("dvwa-alice-0001", staleEntry "dvwa" "dvwa-alice-0001"),
    ("webgoat-alice-0002", staleEntry "webgoat" "webgoat-alice-0002"),
    ("juice-shop-alice-0003", staleEntry "juice-shop" "juice-shop-alice-0003") ]

/-- Claim C2 counterexample: the driver reports all three of the owner's
persisted running containers as nonexistent, yet `start_lab` still counts
them toward the per-owner quota, denies the request, and corrects none of
them to a terminal status — the registry is returned untouched. -/
theorem start_counts_absent_containers :
    container_running dAbsent "dvwa-alice-0001" = false
    ∧ container_running dAbsent "webgoat-alice-0002" = false
    ∧ container_running dAbsent "juice-shop-alice-0003" = false
    ∧ (start_lab dAbsent 100 "9999" staleLabs "alice" "metasploitable").1.success = false
    ∧ (start_lab dAbsent 100 "9999" staleLabs "alice" "metasploitable").1.error
        = some "You already have 3 labs running."
    ∧ (start_lab dAbsent 100 "9999" staleLabs "alice" "metasploitable").2.1 = staleLabs := by
  decide

/-- Claim C2 amended: `start_lab` performs no reconciliation at all — its
quota decision reads only the persisted statuses, so for every driver
(including one reporting the backing containers absent) an owner whose
persisted running count is at the ceiling is denied, with the stale entries
counted and left uncorrected in the registry. -/
theorem start_quota_ignores_driver (d : Driver) (now : Int) (ts : String) (labs : Registry)
    (u t : String) (cfg : LabCfg) (hc : catalogFind t = some cfg)
    (hq : MAX_LABS_PER_USER ≤ ownerRunning labs u) :
    (start_lab d now ts labs u t).1.success = false
    ∧ (start_lab d now ts labs u t).1.error
        = some ("You already have " ++ toString MAX_LABS_PER_USER ++ " labs running.")
    ∧ (start_lab d now ts labs u t).2.1 = labs := by
  rw [startEq_userQuota d now ts labs u t cfg hc ((ownerRunning_eq_length labs u) ▸ hq)]
  exact ⟨ rfl, rfl, rfl ⟩

/-- Witness for `start_quota_ignores_driver` with the all-absent driver. -/
theorem start_quota_ignores_driver_witness :
    catalogFind "metasploitable"
      = some ⟨ "Metasploitable 2", "tleemcjr/metasploitable2", "system", "intermediate", 22,
               "Full penetration testing environment" ⟩
    ∧ MAX_LABS_PER_USER ≤ ownerRunning staleLabs "alice"
    ∧ ((start_lab dAbsent 100 "9999" staleLabs "alice" "metasploitable").1.success = false
        ∧ (start_lab dAbsent 100 "9999" staleLabs "alice" "metasploitable").1.error
            = some ("You already have " ++ toString MAX_LABS_PER_USER ++ " labs running.")
        ∧ (start_lab dAbsent 100 "9999" staleLabs "alice" "metasploitable").2.1 = staleLabs) :=
  ⟨ by decide, by decide,
    start_quota_ignores_driver dAbsent 100 "9999" staleLabs "alice" "metasploitable"
      ⟨ "Metasploitable 2", "tleemcjr/metasploitable2", "system", "intermediate", 22,
        "Full penetration testing environment" ⟩ (by decide) (by decide) ⟩

-- ── C4: stop_lab ignores the driver outcome ─────────────────────

/-- Driver oracle whose stop and remove commands fail (nonzero exit). -/
def dStopFail : Driver :=
  ⟨ 0, 0, fun _ => 0, fun _ => (0, "172.20.0.9"), fun _ => (0, "true"),
    fun _ => 1, fun _ => 1 ⟩

def c4Entry : LabEntry := ⟨ "alice", "dvwa", "dvwa-alice-1111", "172.20.0.4", 80, 0, "running" ⟩

def c4Labs : Registry := [ ("dvwa-alice-1111", c4Entry) ]

/-- Claim C4 counterexample: with a driver whose stop command fails,
`stop_lab` still reports success, surfaces no error, and removes the entry
from the registry — instead of leaving the state unchanged and surfacing the
driver error (and on success the entry is deleted, not persisted as
stopped). -/
theorem stop_ignores_driver_failure :
    dStopFail.stop_rc "dvwa-alice-1111" ≠ 0
    ∧ (stop_lab dStopFail c4Labs "alice" "dvwa").1.success = true
    ∧ (stop_lab dStopFail c4Labs "alice" "dvwa").1.error = none
    ∧ (stop_lab dStopFail c4Labs "alice" "dvwa").2.1 = [] := by
  decide

/-- Claim C4 amended: `stop_lab` locates the owner's first matching running
instance and errors if there is none; otherwise it issues driver stop and
remove but ignores their exit codes entirely: the entry is removed from the
registry (its transient stopped status is erased with it), success is
returned, and the result is identical for every driver — no driver failure
is ever surfaced and nothing is retried. -/
theorem stop_removes_entry_unconditionally (d d' : Driver) (labs : Registry) (u t : String) :
    (stopTarget labs u t = none →
      stop_lab d labs u t =
        ( ⟨ false, some ("You don\x27t have a running " ++ t ++ " lab."), none ⟩, labs, [] ))
    ∧ (∀ kv, stopTarget labs u t = some kv →
        (stop_lab d labs u t).1 = ⟨ true, none, some ("Stopped " ++ kv.1) ⟩
        ∧ (stop_lab d labs u t).2.1
            = alErase (alInsert labs kv.1 (setStatus kv.2 "stopped")) kv.1
        ∧ (stop_lab d labs u t).2.2 = [ DockerCmd.stop kv.1, DockerCmd.rm kv.1 ])
    ∧ stop_lab d labs u t = stop_lab d' labs u t := by
  refine ⟨ ?_, ?_, rfl ⟩
  · intro h
    simp [stop_lab, h]
  · intro kv h
    simp [stop_lab, h]

/-- Witness for `stop_removes_entry_unconditionally` on a failing driver. -/
theorem stop_removes_entry_unconditionally_witness :
    stopTarget c4Labs "alice" "dvwa" = some ("dvwa-alice-1111", c4Entry)
    ∧ ((stop_lab dStopFail c4Labs "alice" "dvwa").1
          = ⟨ true, none, some ("Stopped " ++ "dvwa-alice-1111") ⟩
        ∧ (stop_lab dStopFail c4Labs "alice" "dvwa").2.1
            = alErase (alInsert c4Labs "dvwa-alice-1111" (setStatus c4Entry "stopped"))
                "dvwa-alice-1111"
        ∧ (stop_lab dStopFail c4Labs "alice" "dvwa").2.2
            = [ DockerCmd.stop "dvwa-alice-1111", DockerCmd.rm "dvwa-alice-1111" ]) :=
  ⟨ by decide,
    (stop_removes_entry_unconditionally dStopFail dStopFail c4Labs "alice" "dvwa").2.1
      ("dvwa-alice-1111", c4Entry) (by decide) ⟩

-- ── C9: instance names are not disambiguated against the registry ──

/-- Fully successful driver oracle: network present, run succeeds, the
address query returns an address, liveness queries report running. -/
def dHealthy : Driver :=
  ⟨ 0, 0, fun _ => 0, fun _ => (0, " 172.20.0.5 "), fun _ => (0, "true"),
    fun _ => 0, fun _ => 0 ⟩

def c9Old : LabEntry := ⟨ "alice", "dvwa", "dvwa-alice-1234", "172.20.0.2", 80, -5000, "stopped" ⟩

def c9Labs : Registry := [ ("dvwa-alice-1234", c9Old) ]

/-- Claim C9 counterexample: the registry already holds an entry named
`dvwa-alice-1234`; a `start_lab` whose epoch-digit stamp is again `1234`
derives the same name, succeeds, and persists the new instance under the
existing key, overwriting the old entry — names are not disambiguated
against the registry. -/
theorem start_name_collision_overwrites :
    alLookup c9Labs "dvwa-alice-1234" = some c9Old
    ∧ (start_lab dHealthy 0 "1234" c9Labs "alice" "dvwa").1.success = true
    ∧ (start_lab dHealthy 0 "1234" c9Labs "alice" "dvwa").1.lab_name = some "dvwa-alice-1234"
    ∧ (start_lab dHealthy 0 "1234" c9Labs "alice" "dvwa").2.1
        = [ ("dvwa-alice-1234",
             ⟨ "alice", "dvwa", "dvwa-alice-1234", "172.20.0.5", 80, 0, "running" ⟩) ]
    ∧ ¬ alLookup (start_lab dHealthy 0 "1234" c9Labs "alice" "dvwa").2.1 "dvwa-alice-1234"
          = some c9Old := by
  decide

/-- Claim C9 amended: the instance name is exactly lab-type, owner and the
four-digit time stamp, chosen with no collision check against the registry;
persisting uses key assignment, which overwrites the value already stored
under an equal name instead of picking a fresh one. -/
theorem start_name_no_disambiguation (d : Driver) (now : Int) (ts : String) (labs : Registry)
    (u t : String) (cfg : LabCfg) (ip : String) (hc : catalogFind t = some cfg)
    (hq : ¬ (userRunningLabs labs u).length ≥ MAX_LABS_PER_USER)
    (hg : ¬ totalRunning labs ≥ MAX_TOTAL_LABS)
    (hn : ensure_network d = true)
    (hr : d.run_rc (t ++ "-" ++ u ++ "-" ++ ts) = 0)
    (hip : container_ip d (t ++ "-" ++ u ++ "-" ++ ts) = some ip) :
    (start_lab d now ts labs u t).1.lab_name = some (t ++ "-" ++ u ++ "-" ++ ts)
    ∧ (start_lab d now ts labs u t).2.1
        = alInsert labs (t ++ "-" ++ u ++ "-" ++ ts)
            ⟨ u, t, t ++ "-" ++ u ++ "-" ++ ts, ip, cfg.port, now, "running" ⟩ := by
  rw [startEq_success d now ts labs u t cfg ip hc hq hg hn hr hip]
  exact ⟨ rfl, rfl ⟩

/-- Witness for `start_name_no_disambiguation` at the colliding input. -/
theorem start_name_no_disambiguation_witness :
    catalogFind "dvwa"
      = some ⟨ "Damn Vulnerable Web Application", "vulnerables/web-dvwa", "web", "beginner", 80,
               "Practice SQL injection, XSS, command injection" ⟩
    ∧ ¬ (userRunningLabs c9Labs "alice").length ≥ MAX_LABS_PER_USER
    ∧ container_ip dHealthy ("dvwa" ++ "-" ++ "alice" ++ "-" ++ "1234") = some "172.20.0.5"
    ∧ ((start_lab dHealthy 0 "1234" c9Labs "alice" "dvwa").1.lab_name
          = some ("dvwa" ++ "-" ++ "alice" ++ "-" ++ "1234")
        ∧ (start_lab dHealthy 0 "1234" c9Labs "alice" "dvwa").2.1
            = alInsert c9Labs ("dvwa" ++ "-" ++ "alice" ++ "-" ++ "1234")
                ⟨ "alice", "dvwa", "dvwa" ++ "-" ++ "alice" ++ "-" ++ "1234", "172.20.0.5",
                  80, 0, "running" ⟩) :=
  ⟨ by decide, by decide, by decide,
    start_name_no_disambiguation dHealthy 0 "1234" c9Labs "alice" "dvwa"
      ⟨ "Damn Vulnerable Web Application", "vulnerables/web-dvwa", "web", "beginner", 80,
        "Practice SQL injection, XSS, command injection" ⟩ "172.20.0.5"
      (by decide) (by decide) (by decide) (by decide) (by decide) (by decide) ⟩

-- ── C5: status reconciliation lemmas ────────────────────────────

theorem alLookup_map_transform (g : String → LabEntry → LabEntry) (l : Registry) (n : String) :
    alLookup (l.map (fun kv => (kv.1, g kv.1 kv.2))) n = (alLookup l n).map (g n) := by
  induction l with
  | nil => simp [alLookup]
  | cons kv rest ih =>
      obtain ⟨k, v⟩ := kv
      by_cases h : (k == n) = true
      · obtain rfl : k = n := by simpa using h
        simp [alLookup]
      · simp only [List.map_cons, alLookup, h, if_false, Bool.false_eq_true]
        exact ih

theorem transformEntry_cases (d : Driver) (u n : String) (i : LabEntry) :
    transformEntry d u n i = i ∨ transformEntry d u n i = setStatus i "stopped" := by
  unfold transformEntry
  split_ifs <;> simp

theorem countP_map_transform_lt (p : String × LabEntry → Bool)
    (f : String × LabEntry → String × LabEntry) (l : Registry) (a : String × LabEntry)
    (hmono : ∀ kv ∈ l, p (f kv) = true → p kv = true)
    (ha : a ∈ l) (hpa : p a = true) (hfa : p (f a) = false) :
    (l.map f).countP p + 1 ≤ l.countP p := by
  induction l with
  | nil => simp at ha
  | cons b rest ih =>
      have hrest_le : (rest.map f).countP p ≤ rest.countP p := by
        rw [List.countP_map]
        exact List.countP_mono_left
          (fun x hx hpx => hmono x (List.mem_cons_of_mem _ hx) hpx)
      rcases List.mem_cons.mp ha with rfl | hmem
      · rw [List.map_cons, List.countP_cons, List.countP_cons]
        rw [if_pos hpa, if_neg (by simp [hfa])]
        omega
      · rw [List.map_cons, List.countP_cons, List.countP_cons]
        have hb := hmono b (List.mem_cons_self _ _)
        have hih := ih (fun kv hkv => hmono kv (List.mem_cons_of_mem _ hkv)) hmem
        by_cases hfb : p (f b) = true
        · rw [if_pos hfb, if_pos (hb hfb)]
          omega
        · rw [if_neg hfb]
          split_ifs <;> omega

/-- Claim C5: after `status_labs` runs for an owner over a persisted running
entry whose backing container the driver reports absent, the saved registry
holds that entry downgraded to stopped, the reported active labs omit it,
and both the owner's and the global running counts that a later `start_lab`
quota check reads have strictly decreased past it. -/
theorem status_downgrades_absent (d : Driver) (now : Int) (labs : Registry)
    (uname name : String) (e : LabEntry)
    (hnd : (alKeys labs).Nodup)
    (hmem : alLookup labs name = some e)
    (hown : e.owner = uname) (hrun : e.status = "running")
    (habs : container_running d name = false) :
    alLookup (status_labs d now labs uname).2 name = some (setStatus e "stopped")
    ∧ (∀ rep ∈ (status_labs d now labs uname).1, rep.name ≠ name)
    ∧ ownerRunning (status_labs d now labs uname).2 uname + 1 ≤ ownerRunning labs uname
    ∧ totalRunning (status_labs d now labs uname).2 + 1 ≤ totalRunning labs := by
  have htrans : transformEntry d uname name e = setStatus e "stopped" := by
    unfold transformEntry
    rw [if_pos (by simp [hown]), if_pos (by simp [habs, hrun])]
  have hmono : ∀ (p : String × LabEntry → Bool),
      (∀ k i, p (k, setStatus i "stopped") = false) →
      ∀ kv ∈ labs, p (kv.1, transformEntry d uname kv.1 kv.2) = true → p kv = true := by
    intro p hstop kv _ hp
    rcases transformEntry_cases d uname kv.1 kv.2 with hcase | hcase
    · rwa [hcase] at hp
    · rw [hcase, hstop] at hp
      cases hp
  refine ⟨ ?_, ?_, ?_, ?_ ⟩
  · show alLookup (labs.map (fun kv => (kv.1, transformEntry d uname kv.1 kv.2))) name = _
    rw [alLookup_map_transform, hmem, Option.map_some', htrans]
  · intro rep hrep heq
    rcases List.mem_filterMap.mp hrep with ⟨ kv, hkv, hsome ⟩
    rcases List.mem_map.mp hkv with ⟨ kv0, hkv0, rfl ⟩
    by_cases hcond : ((transformEntry d uname kv0.1 kv0.2).owner == uname
        && (transformEntry d uname kv0.1 kv0.2).status == "running") = true
    · rw [if_pos hcond] at hsome
      have hname : kv0.1 = name := by
        have : rep.name = kv0.1 := by cases hsome; rfl
        rw [← this, heq]
      have hkve : kv0.2 = e := by
        have h1 : alLookup labs kv0.1 = some kv0.2 :=
          alLookup_of_mem_nodup hnd (by cases kv0; exact hkv0)
        rw [hname, hmem] at h1
        simpa using h1.symm
      rw [hname, hkve, htrans] at hcond
      simp [setStatus] at hcond
    · rw [if_neg hcond] at hsome
      cases hsome
  · exact countP_map_transform_lt (fun kv => kv.2.owner == uname && kv.2.status == "running")
      (fun kv => (kv.1, transformEntry d uname kv.1 kv.2)) labs (name, e)
      (hmono (fun kv => kv.2.owner == uname && kv.2.status == "running")
        (fun k i => by simp [setStatus]))
      (alLookup_mem hmem) (by simp [hown, hrun]) (by simp [htrans, setStatus])
  · exact countP_map_transform_lt (fun kv => kv.2.status == "running")
      (fun kv => (kv.1, transformEntry d uname kv.1 kv.2)) labs (name, e)
      (hmono (fun kv => kv.2.status == "running") (fun k i => by simp [setStatus]))
      (alLookup_mem hmem) (by simp [hrun]) (by simp [htrans, setStatus])

/-- Witness for `status_downgrades_absent`: a persisted running lab whose
container the all-absent driver does not report as running. -/
theorem status_downgrades_absent_witness :
    (alKeys staleLabs).Nodup
    ∧ alLookup staleLabs "dvwa-alice-0001" = some (staleEntry "dvwa" "dvwa-alice-0001")
    ∧ container_running dAbsent "dvwa-alice-0001" = false
    ∧ (alLookup (status_labs dAbsent 100 staleLabs "alice").2 "dvwa-alice-0001"
          = some (setStatus (staleEntry "dvwa" "dvwa-alice-0001") "stopped")
        ∧ (∀ rep ∈ (status_labs dAbsent 100 staleLabs "alice").1, rep.name ≠ "dvwa-alice-0001")
        ∧ ownerRunning (status_labs dAbsent 100 staleLabs "alice").2 "alice" + 1
            ≤ ownerRunning staleLabs "alice"
        ∧ totalRunning (status_labs dAbsent 100 staleLabs "alice").2 + 1
            ≤ totalRunning staleLabs) :=
  ⟨ by decide, by decide, by decide,
    status_downgrades_absent dAbsent 100 staleLabs "alice" "dvwa-alice-0001"
      (staleEntry "dvwa" "dvwa-alice-0001") (by decide) (by decide) (by decide) (by decide)
      (by decide) ⟩

-- ── Branch characterizations and sweep sublists ─────────────────

theorem startEq_noNetwork (d : Driver) (now : Int) (ts : String) (labs : Registry)
    (u t : String) (cfg : LabCfg) (hc : catalogFind t = some cfg)
    (hq : ¬ (userRunningLabs labs u).length ≥ MAX_LABS_PER_USER)
    (hg : ¬ totalRunning labs ≥ MAX_TOTAL_LABS)
    (hn : ensure_network d = false) :
    start_lab d now ts labs u t =
      ( ⟨ false, some "Failed to create Docker network. Contact admin.",
          none, none, none, none, none ⟩, labs, [] ) := by
  simp only [start_lab, hc]
  rw [if_neg hq, if_neg hg]
  simp [hn]

theorem startEq_runFail (d : Driver) (now : Int) (ts : String) (labs : Registry)
    (u t : String) (cfg : LabCfg) (hc : catalogFind t = some cfg)
    (hq : ¬ (userRunningLabs labs u).length ≥ MAX_LABS_PER_USER)
    (hg : ¬ totalRunning labs ≥ MAX_TOTAL_LABS)
    (hn : ensure_network d = true)
    (hr : ¬ d.run_rc (t ++ "-" ++ u ++ "-" ++ ts) = 0) :
    start_lab d now ts labs u t =
      ( ⟨ false, some ("Failed to start " ++ t ++ ". Check Docker logs."),
          none, none, none, none, none ⟩, labs,
        [ DockerCmd.run (t ++ "-" ++ u ++ "-" ++ ts) ] ) := by
  simp only [start_lab, hc]
  rw [if_neg hq, if_neg hg]
  simp only [hn, Bool.not_true, Bool.false_eq_true, if_false]
  rw [if_pos (by simpa using hr)]

/-- Every exit of `start_lab` either leaves the registry untouched or, on the
fully successful path, inserts the freshly derived entry. -/
theorem start_registry_cases (d : Driver) (now : Int) (ts : String) (labs : Registry)
    (u t : String) :
    (start_lab d now ts labs u t).2.1 = labs
    ∨ ∃ cfg ip, catalogFind t = some cfg
        ∧ (userRunningLabs labs u).length < MAX_LABS_PER_USER
        ∧ totalRunning labs < MAX_TOTAL_LABS
        ∧ container_ip d (t ++ "-" ++ u ++ "-" ++ ts) = some ip
        ∧ (start_lab d now ts labs u t).2.1
            = alInsert labs (t ++ "-" ++ u ++ "-" ++ ts)
                ⟨ u, t, t ++ "-" ++ u ++ "-" ++ ts, ip, cfg.port, now, "running" ⟩ := by
  cases hc : catalogFind t with
  | none =>
      left
      simp [start_lab, hc]
  | some cfg =>
      by_cases h1 : (userRunningLabs labs u).length ≥ MAX_LABS_PER_USER
      · left
        rw [startEq_userQuota d now ts labs u t cfg hc h1]
      · by_cases h2 : totalRunning labs ≥ MAX_TOTAL_LABS
        · left
          rw [startEq_globalQuota d now ts labs u t cfg hc h1 h2]
        · cases hn : ensure_network d with
          | false =>
              left
              rw [startEq_noNetwork d now ts labs u t cfg hc h1 h2 hn]
          | true =>
              by_cases hr : d.run_rc (t ++ "-" ++ u ++ "-" ++ ts) = 0
              · cases hip : container_ip d (t ++ "-" ++ u ++ "-" ++ ts) with
                | none =>
                    left
                    rw [startEq_noIP d now ts labs u t cfg hc h1 h2 hn hr hip]
                | some ip =>
                    right
                    refine ⟨ cfg, ip, rfl, by omega, by omega, rfl, ?_ ⟩
                    rw [startEq_success d now ts labs u t cfg ip hc h1 h2 hn hr hip]
              · left
                rw [startEq_runFail d now ts labs u t cfg hc h1 h2 hn hr]

theorem stop_registry_cases (d : Driver) (labs : Registry) (u t : String) :
    (stop_lab d labs u t).2.1 = labs
    ∨ ∃ kv, stopTarget labs u t = some kv
        ∧ (stop_lab d labs u t).2.1
            = alErase (alInsert labs kv.1 (setStatus kv.2 "stopped")) kv.1 := by
  cases h : stopTarget labs u t with
  | none =>
      left
      simp [stop_lab, h]
  | some kv =>
      right
      exact ⟨ kv, rfl, by simp [stop_lab, h] ⟩

theorem forceGo_sublist (u : String) (ks : List String) :
    ∀ l : Registry, ((forceGo u ks l).1).Sublist l := by
  induction ks with
  | nil => intro l; simp [forceGo]
  | cons n rest ih =>
      intro l
      simp only [forceGo]
      cases h : alLookup l n with
      | none => exact ih l
      | some e =>
          by_cases ho : (e.owner == u) = true
          · simp only [ho, if_pos]
            exact (ih (alErase l n)).trans (alErase_sublist l n)
          · simp only [ho, Bool.false_eq_true, if_false]
            exact ih l

theorem autoPass1_sublist (now : Int) (ks : List String) :
    ∀ l : Registry, ((autoPass1 now ks l).1).Sublist l := by
  induction ks with
  | nil => intro l; simp [autoPass1]
  | cons n rest ih =>
      intro l
      simp only [autoPass1]
      cases h : alLookup l n with
      | none => exact ih l
      | some info =>
          by_cases he : expired now info = true
          · simp only [he, if_pos]
            exact (ih (alErase l n)).trans (alErase_sublist l n)
          · simp only [he, Bool.false_eq_true, if_false]
            exact ih l

theorem autoPass2_sublist (d : Driver) (ks : List String) :
    ∀ l : Registry, (autoPass2 d ks l).Sublist l := by
  induction ks with
  | nil => intro l; simp [autoPass2]
  | cons n rest ih =>
      intro l
      simp only [autoPass2]
      by_cases hr : container_running d n = true
      · simp only [hr, if_pos]
        exact ih l
      · simp only [hr, Bool.false_eq_true, if_false]
        exact (ih (alErase l n)).trans (alErase_sublist l n)

theorem auto_cleanup_sublist (d : Driver) (now : Int) (labs : Registry) :
    ((auto_cleanup d now labs).2.1).Sublist labs :=
  (autoPass2_sublist d _ _).trans (autoPass1_sublist now _ labs)

theorem countP_transform_map_le (d : Driver) (uname : String) (p : String × LabEntry → Bool)
    (hstop : ∀ k i, p (k, setStatus i "stopped") = false) (l : Registry) :
    (l.map (fun kv => (kv.1, transformEntry d uname kv.1 kv.2))).countP p ≤ l.countP p := by
  rw [List.countP_map]
  refine List.countP_mono_left (fun kv _ hp => ?_)
  simp only [Function.comp] at hp
  rcases transformEntry_cases d uname kv.1 kv.2 with hc | hc
  · rwa [hc] at hp
  · rw [hc, hstop] at hp
    cases hp

theorem container_ip_ne_empty {d : Driver} {n ip : String}
    (h : container_ip d n = some ip) : ip ≠ "" := by
  simp only [container_ip] at h
  split_ifs at h with hg
  obtain rfl : pyStrip (d.inspectIP n).2 = ip := by simpa using h
  intro hemp
  rw [hemp] at hg
  simp at hg

-- ── Registry invariants over operation sequences ────────────────

/-- Quota invariant: every owner is within the per-owner ceiling and the
total running count is within the global ceiling. -/
def QuotaOk (labs : Registry) : Prop :=
  (∀ o, ownerRunning labs o ≤ MAX_LABS_PER_USER) ∧ totalRunning labs ≤ MAX_TOTAL_LABS

/-- Address invariant: every persisted running entry has a non-empty address. -/
def AddrOk (labs : Registry) : Prop :=
  ∀ kv ∈ labs, kv.2.status = "running" → kv.2.ip_address ≠ ""

theorem quotaOk_applyOp (labs : Registry) (op : Op) (h : QuotaOk labs) :
    QuotaOk (applyOp labs op) := by
  cases op with
  | doStart d now ts u t =>
      rcases start_registry_cases d now ts labs u t with heq | ⟨ cfg, ip, hc, h1, h2, hip, heq ⟩
      · simp only [applyOp]
        rw [heq]
        exact h
      · simp only [applyOp]
        rw [heq]
        constructor
        · intro o
          by_cases ho : o = u
          · subst ho
            have h1' : ownerRunning labs o < MAX_LABS_PER_USER := by
              rw [ownerRunning_eq_length]
              exact h1
            have hle := countP_alInsert_le
              (fun kv => kv.2.owner == o && kv.2.status == "running") labs
              (t ++ "-" ++ o ++ "-" ++ ts)
              ⟨ o, t, t ++ "-" ++ o ++ "-" ++ ts, ip, cfg.port, now, "running" ⟩
            simp only [ownerRunning] at h1' ⊢
            refine le_trans hle ?_
            split_ifs <;> omega
          · have hu : (u == o) = false := beq_eq_false_iff_ne.mpr (fun hh => ho hh.symm)
            have hle := countP_alInsert_le
              (fun kv => kv.2.owner == o && kv.2.status == "running") labs
              (t ++ "-" ++ u ++ "-" ++ ts)
              ⟨ u, t, t ++ "-" ++ u ++ "-" ++ ts, ip, cfg.port, now, "running" ⟩
            have ho1 := h.1 o
            rw [if_neg (by simp [hu])] at hle
            simp only [ownerRunning] at ho1 ⊢
            omega
        · have hle := countP_alInsert_le
            (fun kv => kv.2.status == "running") labs
            (t ++ "-" ++ u ++ "-" ++ ts)
            ⟨ u, t, t ++ "-" ++ u ++ "-" ++ ts, ip, cfg.port, now, "running" ⟩
          simp only [totalRunning] at h2 ⊢
          refine le_trans hle ?_
          split_ifs <;> omega
  | doStop d u t =>
      rcases stop_registry_cases d labs u t with heq | ⟨ kv, hkv, heq ⟩
      · simp only [applyOp]
        rw [heq]
        exact h
      · simp only [applyOp]
        rw [heq]
        constructor
        · intro o
          refine le_trans ((alErase_sublist _ _).countP_le _) (le_trans ?_ (h.1 o))
          have hle := countP_alInsert_le
            (fun kv => kv.2.owner == o && kv.2.status == "running") labs kv.1
            (setStatus kv.2 "stopped")
          simpa [setStatus] using hle
        · refine le_trans ((alErase_sublist _ _).countP_le _) (le_trans ?_ h.2)
          have hle := countP_alInsert_le
            (fun kv => kv.2.status == "running") labs kv.1 (setStatus kv.2 "stopped")
          simpa [setStatus] using hle
  | doStatus d now u =>
      refine ⟨ fun o => ?_, ?_ ⟩
      · exact le_trans
          (countP_transform_map_le d u _ (fun k i => by simp [setStatus]) labs) (h.1 o)
      · exact le_trans
          (countP_transform_map_le d u _ (fun k i => by simp [setStatus]) labs) h.2
  | doForce d u =>
      refine ⟨ fun o => ?_, ?_ ⟩
      · exact le_trans ((forceGo_sublist u (alKeys labs) labs).countP_le _) (h.1 o)
      · exact le_trans ((forceGo_sublist u (alKeys labs) labs).countP_le _) h.2
  | doAuto d now =>
      refine ⟨ fun o => ?_, ?_ ⟩
      · exact le_trans ((auto_cleanup_sublist d now labs).countP_le _) (h.1 o)
      · exact le_trans ((auto_cleanup_sublist d now labs).countP_le _) h.2

theorem quotaOk_execOps (ops : List Op) : QuotaOk (execOps ops) := by
  have hgen : ∀ labs, QuotaOk labs → QuotaOk (List.foldl applyOp labs ops) := by
    induction ops with
    | nil => exact fun labs h => h
    | cons op rest ih => exact fun labs h => ih _ (quotaOk_applyOp labs op h)
  refine hgen [] ⟨ fun o => ?_, ?_ ⟩
  · simp [ownerRunning]
  · simp [totalRunning]

theorem addrOk_applyOp (labs : Registry) (op : Op) (h : AddrOk labs) :
    AddrOk (applyOp labs op) := by
  cases op with
  | doStart d now ts u t =>
      rcases start_registry_cases d now ts labs u t with heq | ⟨ cfg, ip, hc, h1, h2, hip, heq ⟩
      · simp only [applyOp]
        rw [heq]
        exact h
      · simp only [applyOp]
        rw [heq]
        intro kv hkv hrun
        rcases mem_alInsert hkv with hold | rfl
        · exact h kv hold hrun
        · exact container_ip_ne_empty hip
  | doStop d u t =>
      rcases stop_registry_cases d labs u t with heq | ⟨ kv, hkv, heq ⟩
      · simp only [applyOp]
        rw [heq]
        exact h
      · simp only [applyOp]
        rw [heq]
        intro kv' hkv' hrun
        rcases mem_alInsert ((alErase_sublist _ _).subset hkv') with hold | rfl
        · exact h kv' hold hrun
        · simp [setStatus] at hrun
  | doStatus d now u =>
      intro kv hkv hrun
      rcases List.mem_map.mp hkv with ⟨ kv0, hkv0, rfl ⟩
      rcases transformEntry_cases d u kv0.1 kv0.2 with hc | hc
      · rw [hc] at hrun ⊢
        exact h kv0 hkv0 hrun
      · rw [hc] at hrun
        simp [setStatus] at hrun
  | doForce d u =>
      intro kv hkv hrun
      exact h kv ((forceGo_sublist u (alKeys labs) labs).subset hkv) hrun
  | doAuto d now =>
      intro kv hkv hrun
      exact h kv ((auto_cleanup_sublist d now labs).subset hkv) hrun

theorem addrOk_execOps (ops : List Op) : AddrOk (execOps ops) := by
  have hgen : ∀ labs, AddrOk labs → AddrOk (List.foldl applyOp labs ops) := by
    induction ops with
    | nil => exact fun labs h => h
    | cons op rest ih => exact fun labs h => ih _ (addrOk_applyOp labs op h)
  exact hgen [] (fun kv hkv => by cases hkv)

-- ── C1: quota ceilings and quota denials ────────────────────────

/-- Claim C1: along every sequence of orchestrator operations from the empty
registry, each owner's persisted running count stays within the per-owner
ceiling and the total running count within the global ceiling; a create
attempted when the owner is at the per-owner ceiling (or the system at the
global ceiling) returns the quota failure — the per-owner one listing the
owner's running lab types — and leaves the registry untouched. -/
theorem quota_ceilings_and_denial :
    (∀ ops : List Op, ∀ owner, ownerRunning (execOps ops) owner ≤ MAX_LABS_PER_USER
        ∧ totalRunning (execOps ops) ≤ MAX_TOTAL_LABS)
    ∧ (∀ (d : Driver) (now : Int) (ts : String) (labs : Registry) (u t : String) (cfg : LabCfg),
        catalogFind t = some cfg → MAX_LABS_PER_USER ≤ ownerRunning labs u →
        start_lab d now ts labs u t =
          ( ⟨ false,
              some ("You already have " ++ toString MAX_LABS_PER_USER ++ " labs running."),
              none, some ((userRunningLabs labs u).map (fun kv => kv.2.lab_type)),
              none, none, none ⟩, labs, [] ))
    ∧ (∀ (d : Driver) (now : Int) (ts : String) (labs : Registry) (u t : String) (cfg : LabCfg),
        catalogFind t = some cfg → ownerRunning labs u < MAX_LABS_PER_USER →
        MAX_TOTAL_LABS ≤ totalRunning labs →
        start_lab d now ts labs u t =
          ( ⟨ false, some "Server lab capacity reached. Try again later.",
              none, none, none, none, none ⟩, labs, [] )) := by
  refine ⟨ ?_, ?_, ?_ ⟩
  · intro ops owner
    exact ⟨ (quotaOk_execOps ops).1 owner, (quotaOk_execOps ops).2 ⟩
  · intro d now ts labs u t cfg hc hq
    exact startEq_userQuota d now ts labs u t cfg hc ((ownerRunning_eq_length labs u) ▸ hq)
  · intro d now ts labs u t cfg hc hq hg
    refine startEq_globalQuota d now ts labs u t cfg hc ?_ hg
    rw [← ownerRunning_eq_length]
    omega

/-- Witness for `quota_ceilings_and_denial`: the per-owner denial at a full
owner, and the global-quota hypothesis chain at a concrete instance. -/
theorem quota_ceilings_and_denial_witness :
    catalogFind "dvwa"
      = some ⟨ "Damn Vulnerable Web Application", "vulnerables/web-dvwa", "web", "beginner", 80,
               "Practice SQL injection, XSS, command injection" ⟩
    ∧ MAX_LABS_PER_USER ≤ ownerRunning staleLabs "alice"
    ∧ start_lab dHealthy 100 "7777" staleLabs "alice" "dvwa" =
        ( ⟨ false,
            some ("You already have " ++ toString MAX_LABS_PER_USER ++ " labs running."),
            none, some ((userRunningLabs staleLabs "alice").map (fun kv => kv.2.lab_type)),
            none, none, none ⟩, staleLabs, [] ) :=
  ⟨ by decide, by decide,
    quota_ceilings_and_denial.2.1 dHealthy 100 "7777" staleLabs "alice" "dvwa"
      ⟨ "Damn Vulnerable Web Application", "vulnerables/web-dvwa", "web", "beginner", 80,
        "Practice SQL injection, XSS, command injection" ⟩ (by decide) (by decide) ⟩

-- ── C3: running entries always carry an address ─────────────────

/-- Claim C3: along every operation sequence from the empty registry, every
persisted running entry has a non-empty network address; and on the create
path where the driver run succeeds but the address query returns nothing,
`start_lab` removes the just-created container, persists nothing, and fails
with the distinct no-address error. -/
theorem running_entries_have_address :
    (∀ ops : List Op, ∀ kv ∈ execOps ops, kv.2.status = "running" → kv.2.ip_address ≠ "")
    ∧ (∀ (d : Driver) (now : Int) (ts : String) (labs : Registry) (u t : String) (cfg : LabCfg),
        catalogFind t = some cfg →
        ¬ (userRunningLabs labs u).length ≥ MAX_LABS_PER_USER →
        ¬ totalRunning labs ≥ MAX_TOTAL_LABS →
        ensure_network d = true →
        d.run_rc (t ++ "-" ++ u ++ "-" ++ ts) = 0 →
        container_ip d (t ++ "-" ++ u ++ "-" ++ ts) = none →
        (start_lab d now ts labs u t).1
            = ⟨ false, some "Container started but no IP assigned.",
                none, none, none, none, none ⟩
        ∧ (start_lab d now ts labs u t).2.1 = labs
        ∧ (start_lab d now ts labs u t).2.2
            = [ DockerCmd.run (t ++ "-" ++ u ++ "-" ++ ts),
                DockerCmd.rm (t ++ "-" ++ u ++ "-" ++ ts) ]) := by
  refine ⟨ fun ops => addrOk_execOps ops, ?_ ⟩
  intro d now ts labs u t cfg hc hq hg hn hr hip
  rw [startEq_noIP d now ts labs u t cfg hc hq hg hn hr hip]
  exact ⟨ rfl, rfl, rfl ⟩

/-- Driver oracle whose run succeeds but whose address inspection fails, so
no address is ever assigned. -/
def dNoIP : Driver :=
  ⟨ 0, 0, fun _ => 0, fun _ => (1, ""), fun _ => (0, "true"), fun _ => 0, fun _ => 0 ⟩

/-- Witness for `running_entries_have_address` on the no-address driver. -/
theorem running_entries_have_address_witness :
    container_ip dNoIP ("dvwa" ++ "-" ++ "alice" ++ "-" ++ "4242") = none
    ∧ ((start_lab dNoIP 0 "4242" [] "alice" "dvwa").1
          = ⟨ false, some "Container started but no IP assigned.",
              none, none, none, none, none ⟩
        ∧ (start_lab dNoIP 0 "4242" [] "alice" "dvwa").2.1 = []
        ∧ (start_lab dNoIP 0 "4242" [] "alice" "dvwa").2.2
            = [ DockerCmd.run ("dvwa" ++ "-" ++ "alice" ++ "-" ++ "4242"),
                DockerCmd.rm ("dvwa" ++ "-" ++ "alice" ++ "-" ++ "4242") ]) :=
  ⟨ by decide,
    running_entries_have_address.2 dNoIP 0 "4242" [] "alice" "dvwa"
      ⟨ "Damn Vulnerable Web Application", "vulnerables/web-dvwa", "web", "beginner", 80,
        "Practice SQL injection, XSS, command injection" ⟩
      (by decide) (by decide) (by decide) (by decide) (by decide) (by decide) ⟩

-- ── C8: auto_cleanup idempotence lemmas ─────────────────────────

theorem autoPass1_lookup_none {now : Int} {n : String} {l : Registry} (rest : List String)
    (h : alLookup l n = none) :
    autoPass1 now (n :: rest) l = autoPass1 now rest l := by
  simp [autoPass1, h]

theorem autoPass1_skip {now : Int} {n : String} {info : LabEntry} {l : Registry}
    (rest : List String) (h : alLookup l n = some info) (he : expired now info = false) :
    autoPass1 now (n :: rest) l = autoPass1 now rest l := by
  simp [autoPass1, h, he]

theorem autoPass1_expire {now : Int} {n : String} {info : LabEntry} {l : Registry}
    (rest : List String) (h : alLookup l n = some info) (he : expired now info = true) :
    autoPass1 now (n :: rest) l
      = ((autoPass1 now rest (alErase l n)).1,
         ⟨ n, info.owner, ((now - info.started_at : Int) : ℚ) / 3600 ⟩
             :: (autoPass1 now rest (alErase l n)).2.1,
         DockerCmd.stop n :: DockerCmd.rm n :: (autoPass1 now rest (alErase l n)).2.2) := by
  simp [autoPass1, h, he]

theorem autoPass2_keep {d : Driver} {n : String} (rest : List String) (l : Registry)
    (h : container_running d n = true) :
    autoPass2 d (n :: rest) l = autoPass2 d rest l := by
  simp [autoPass2, h]

theorem autoPass2_gone {d : Driver} {n : String} (rest : List String) (l : Registry)
    (h : container_running d n = false) :
    autoPass2 d (n :: rest) l = autoPass2 d rest (alErase l n) := by
  simp [autoPass2, h]

theorem autoPass1_noexpire (now : Int) (ks : List String) :
    ∀ l : Registry, (alKeys l).Nodup →
      ∀ kv ∈ (autoPass1 now ks l).1, kv.1 ∈ ks → expired now kv.2 = false := by
  induction ks with
  | nil =>
      intro l _ kv _ hin
      simp at hin
  | cons n rest ih =>
      intro l hnd kv hkv hin
      cases h : alLookup l n with
      | none =>
          rw [autoPass1_lookup_none rest h] at hkv
          rcases List.mem_cons.mp hin with heq | hin'
          · exact absurd (heq ▸ mem_alKeys_of_mem ((autoPass1_sublist now rest l).subset hkv))
              (alLookup_eq_none h)
          · exact ih l hnd kv hkv hin'
      | some info =>
          by_cases he : expired now info = true
          · rw [autoPass1_expire rest h he] at hkv
            simp only at hkv
            rcases List.mem_cons.mp hin with heq | hin'
            · exact absurd
                (heq ▸ mem_alKeys_of_mem ((autoPass1_sublist now rest (alErase l n)).subset hkv))
                (not_mem_alKeys_alErase hnd)
            · exact ih (alErase l n) (nodup_alKeys_alErase n hnd) kv hkv hin'
          · rw [Bool.not_eq_true] at he
            rw [autoPass1_skip rest h he] at hkv
            rcases List.mem_cons.mp hin with heq | hin'
            · have hmem : kv ∈ l := (autoPass1_sublist now rest l).subset hkv
              have hlk : alLookup l kv.1 = some kv.2 :=
                alLookup_of_mem_nodup hnd (by cases kv; exact hmem)
              rw [heq, h] at hlk
              obtain rfl : info = kv.2 := by simpa using hlk
              exact he
            · exact ih l hnd kv hkv hin'

theorem autoPass2_runs (d : Driver) (ks : List String) :
    ∀ l : Registry, (alKeys l).Nodup →
      ∀ kv ∈ autoPass2 d ks l, kv.1 ∈ ks → container_running d kv.1 = true := by
  induction ks with
  | nil =>
      intro l _ kv _ hin
      simp at hin
  | cons n rest ih =>
      intro l hnd kv hkv hin
      by_cases hr : container_running d n = true
      · rw [autoPass2_keep rest l hr] at hkv
        rcases List.mem_cons.mp hin with heq | hin'
        · rw [heq]
          exact hr
        · exact ih l hnd kv hkv hin'
      · rw [Bool.not_eq_true] at hr
        rw [autoPass2_gone rest l hr] at hkv
        rcases List.mem_cons.mp hin with heq | hin'
        · exact absurd
            (heq ▸ mem_alKeys_of_mem ((autoPass2_sublist d rest (alErase l n)).subset hkv))
            (not_mem_alKeys_alErase hnd)
        · exact ih (alErase l n) (nodup_alKeys_alErase n hnd) kv hkv hin'

theorem autoPass1_noop (now : Int) (ks : List String) (l : Registry)
    (h : ∀ kv ∈ l, expired now kv.2 = false) :
    autoPass1 now ks l = (l, [], []) := by
  induction ks with
  | nil => rfl
  | cons n rest ih =>
      cases hl : alLookup l n with
      | none => rw [autoPass1_lookup_none rest hl, ih]
      | some info =>
          have he : expired now info = false := h (n, info) (alLookup_mem hl)
          rw [autoPass1_skip rest hl he, ih]

theorem autoPass2_noop (d : Driver) (ks : List String) (l : Registry)
    (h : ∀ n ∈ ks, container_running d n = true) :
    autoPass2 d ks l = l := by
  induction ks with
  | nil => rfl
  | cons n rest ih =>
      rw [autoPass2_keep rest l (h n (List.mem_cons_self _ _))]
      exact ih (fun m hm => h m (List.mem_cons_of_mem _ hm))

/-- Claim C8: `auto_cleanup` is idempotent — run twice back to back (same
sweep time, no intervening activity, so the driver oracle is unchanged on
the surviving names), the second run reports an empty cleaned set, leaves
the registry exactly as the first run left it, and issues no docker stop or
remove commands. -/
theorem auto_cleanup_idempotent (d : Driver) (now : Int) (labs : Registry)
    (hnd : (alKeys labs).Nodup) :
    (auto_cleanup d now (auto_cleanup d now labs).2.1).1.cleaned = []
    ∧ (auto_cleanup d now (auto_cleanup d now labs).2.1).2.1 = (auto_cleanup d now labs).2.1
    ∧ (auto_cleanup d now (auto_cleanup d now labs).2.1).2.2 = [] := by
  have hfirst : (auto_cleanup d now labs).2.1
      = autoPass2 d (alKeys (autoPass1 now (alKeys labs) labs).1)
          (autoPass1 now (alKeys labs) labs).1 := rfl
  set l1 := (autoPass1 now (alKeys labs) labs).1 with hl1
  set l2 := autoPass2 d (alKeys l1) l1 with hl2
  have hsub1 : l1.Sublist labs := autoPass1_sublist now _ labs
  have hnd1 : (alKeys l1).Nodup := List.Nodup.sublist (List.Sublist.map _ hsub1) hnd
  have hsub2 : l2.Sublist l1 := autoPass2_sublist d _ l1
  have hP1 : ∀ kv ∈ l2, expired now kv.2 = false := by
    intro kv hkv
    exact autoPass1_noexpire now (alKeys labs) labs hnd kv (hsub2.subset hkv)
      (mem_alKeys_of_mem (hsub1.subset (hsub2.subset hkv)))
  have hP2 : ∀ n ∈ alKeys l2, container_running d n = true := by
    intro n hn
    rcases List.mem_map.mp hn with ⟨ kv, hkv, rfl ⟩
    exact autoPass2_runs d (alKeys l1) l1 hnd1 kv hkv (mem_alKeys_of_mem (hsub2.subset hkv))
  have hpass1 : autoPass1 now (alKeys l2) l2 = (l2, [], []) := autoPass1_noop now _ l2 hP1
  have hpass2 : autoPass2 d (alKeys l2) l2 = l2 := autoPass2_noop d _ l2 hP2
  rw [hfirst]
  simp [auto_cleanup, hpass1, hpass2]

/-- Witness for `auto_cleanup_idempotent`: a registry holding one expired
running lab, one fresh running lab, and one stale stopped entry, swept with
a driver that reports only the fresh lab's container as running. -/
def c8Driver : Driver :=
  ⟨ 0, 0, fun _ => 0, fun _ => (0, "172.20.0.7"),
    fun n => if n == "webgoat-bob-2222" then (0, "true") else (1, ""),
    fun _ => 0, fun _ => 0 ⟩

def c8Labs : Registry :=
  [ ("dvwa-alice-1111", ⟨ "alice", "dvwa", "dvwa-alice-1111", "172.20.0.2", 80, 0, "running" ⟩),
    ("webgoat-bob-2222", ⟨ "bob", "webgoat", "webgoat-bob-2222", "172.20.0.3", 8080,
      5 * 3600, "running" ⟩),
    ("juice-shop-carol-3333", ⟨ "carol", "juice-shop", "juice-shop-carol-3333", "172.20.0.4",
      3000, 0, "stopped" ⟩) ]

theorem auto_cleanup_idempotent_witness :
    (alKeys c8Labs).Nodup
    ∧ ((auto_cleanup c8Driver (6 * 3600) (auto_cleanup c8Driver (6 * 3600) c8Labs).2.1).1.cleaned
          = []
        ∧ (auto_cleanup c8Driver (6 * 3600) (auto_cleanup c8Driver (6 * 3600) c8Labs).2.1).2.1
            = (auto_cleanup c8Driver (6 * 3600) c8Labs).2.1
        ∧ (auto_cleanup c8Driver (6 * 3600) (auto_cleanup c8Driver (6 * 3600) c8Labs).2.1).2.2
            = []) :=
  ⟨ by decide, auto_cleanup_idempotent c8Driver (6 * 3600) c8Labs (by decide) ⟩
